import Mathlib

set_option maxHeartbeats 1000000
set_option maxRecDepth 100000

/-!
Shallow embedding of the Telegram bot source `IranSCBot.py`.

The bot's three API clients (`get_weather`, `fetch_joke`, `fetch_news`) each
perform an HTTP GET inside a `try` block and map the parsed JSON to a display
string.  We embed each client as a pure function over an *outcome* value that
abstracts the result of the network call (success with parsed JSON, timeout,
HTTP error status, other failure).  Python code that can raise is embedded as
an `Except PyExc` computation: dictionary subscription on a missing key raises
`KeyError`, and the surrounding `except` clauses of the source are translated
as explicit matches on the error, so that an error the source does not catch
remains visible as an `Except.error` result.

The `/weather` command handler's retry loop is embedded as a fuel-indexed
recursion that also counts how many times the weather client is called and how
many times `time.sleep(2)` runs.
-/

/-- Python exception classes distinguished by the source's `except` clauses.
`timeout` is `requests.exceptions.Timeout`, `httpError` is
`requests.exceptions.HTTPError` (raised by `raise_for_status` on a non-2xx
status), `requestExc` is any other `requests.exceptions.RequestException`,
`keyError` is `KeyError` from `dict[...]` on a missing key, and `otherExc`
is any other exception. -/
inductive PyExc where
  | timeout
  | httpError (status : Nat)
  | requestExc
  | keyError
  | otherExc
deriving DecidableEq

/-- Python `str.capitalize()`: first character uppercased, the rest
lowercased. -/
def pyCapitalize (s : String) : String :=
  match s.data with
  | [] => ""
  | c :: cs => String.mk (Char.toUpper c :: List.map Char.toLower cs)

/-- Boolean substring test on `List Char`, mirroring Python's `in` operator
on strings: `needle` occurs contiguously in the haystack. -/
def charsInfixOf (needle : List Char) : List Char → Bool
  | [] => needle.isPrefixOf []
  | b :: bs => needle.isPrefixOf (b :: bs) || charsInfixOf needle bs

/-- Python's `needle in hay` substring test on strings. -/
def pyIn (needle hay : String) : Bool :=
  charsInfixOf needle.data hay.data

/-- The parsed `current` object of a WeatherAPI JSON response.  Each field is
`none` when the corresponding key path is absent.  Numeric JSON fields are
carried as the strings they render to in the f-string. -/
structure CurrentData where
  condition_text : Option String
  temp_c : Option String
  humidity : Option String
  wind_kph : Option String
deriving DecidableEq

/-- A parsed WeatherAPI JSON body: `current` is `none` when the `"current"`
key is absent (the source's `if 'current' in data` test). -/
structure WeatherData where
  current : Option CurrentData
deriving DecidableEq

/-- Outcome of `requests.get` + `raise_for_status` + `json()` for the weather
request. -/
inductive WeatherOutcome where
  | success (data : WeatherData)
  | timeout
  | httpError (status : Nat)
  | otherFailure
deriving DecidableEq

def usageMsg : String :=
  "لطفاً نام یک شهر را وارد کنید. مثال: /weather تهران"

def cityNotFoundMsg : String :=
  "متاسفم، اطلاعاتی درباره آب و هوای این شهر موجود نیست. لطفاً نام شهر را بررسی کنید و دوباره امتحان کنید."

def weatherTimeoutMsg : String :=
  "سرویس آب و هوا زمان زیادی برای پاسخ صرف کرد. لطفاً بعداً دوباره امتحان کنید."

def weatherServerErrorMsg : String :=
  "خطایی در ارتباط با سرور آب و هوا رخ داده است. لطفاً بعداً دوباره امتحان کنید."

def weatherGenericErrorMsg : String :=
  "متاسفم، خطایی رخ داده است. لطفاً بعداً دوباره امتحان کنید."

/-- The multi-line `weather_info` f-string of `get_weather`. -/
def weather_info (city weather_description temperature humidity wind_speed : String) : String :=
  "آب و هوای " ++ pyCapitalize city ++ ":\n" ++
  "توضیحات: " ++ weather_description ++ "\n" ++
  "دمای هوا: " ++ temperature ++ "°C\n" ++
  "رطوبت: " ++ humidity ++ "%\n" ++
  "سرعت باد: " ++ wind_speed ++ " کیلومتر/ساعت"

/-- The `try` block of `get_weather`: raises (`Except.error`) exactly where
the Python body raises.  Field accesses `data['current']['condition']['text']`
etc. raise `KeyError` when the key path is absent. -/
def get_weather_try (city : String) (o : WeatherOutcome) : Except PyExc String :=
  match o with
  | .timeout => Except.error PyExc.timeout
  | .httpError status => Except.error (PyExc.httpError status)
  | .otherFailure => Except.error PyExc.otherExc
  | .success data =>
    match data.current with
    | some current =>
      match current.condition_text, current.temp_c, current.humidity, current.wind_kph with
      | some wd, some t, some h, some w => Except.ok (weather_info city wd t h w)
      | _, _, _, _ => Except.error PyExc.keyError
    | none => Except.ok cityNotFoundMsg

/-- `get_weather` with its three `except` clauses: `Timeout`, `HTTPError`,
then a catch-all `Exception`.  Every raise in the body is caught, so the
function is total into `String`. -/
def get_weather (city : String) (o : WeatherOutcome) : String :=
  match get_weather_try city o with
  | Except.ok s => s
  | Except.error PyExc.timeout => weatherTimeoutMsg
  | Except.error (PyExc.httpError _) => weatherServerErrorMsg
  | Except.error _ => weatherGenericErrorMsg

def jokeShapeFallbackMsg : String :=
  "Sorry, I couldn\x27t find a joke right now. Try again later."

def jokeNetworkFallbackMsg : String :=
  "متاسفم، نتوانستم یک جوک پیدا کنم. لطفاً بعداً دوباره امتحان کنید."

/-- Outcome of the joke request: a parsed JSON body (fields `none` when the
key is absent; `data.get("type")` yields `none` rather than raising), or a
`requests.exceptions.RequestException` covering timeout, HTTP error and any
other network failure. -/
inductive JokeOutcome where
  | success (typ joke setup delivery : Option String)
  | requestFailure
deriving DecidableEq

/-- The `try` block of `fetch_joke`.  `data["joke"]`, `data["setup"]`,
`data["delivery"]` raise `KeyError` when absent. -/
def fetch_joke_try : JokeOutcome → Except PyExc String
  | .requestFailure => Except.error PyExc.requestExc
  | .success typ joke setup delivery =>
    if typ = some "single" then
      match joke with
      | some j => Except.ok j
      | none => Except.error PyExc.keyError
    else if typ = some "twopart" then
      match setup, delivery with
      | some a, some b => Except.ok (a ++ " - " ++ b)
      | _, _ => Except.error PyExc.keyError
    else
      Except.ok jokeShapeFallbackMsg

/-- `fetch_joke`: only `requests.exceptions.RequestException` is caught; any
other raise (in particular `KeyError`) propagates to the caller, hence the
`Except` result type. -/
def fetch_joke (o : JokeOutcome) : Except PyExc String :=
  match fetch_joke_try o with
  | Except.ok s => Except.ok s
  | Except.error PyExc.requestExc => Except.ok jokeNetworkFallbackMsg
  | Except.error e => Except.error e

def newsTitleDefault : String :=
  "عنوان نامشخص"

def newsDescriptionDefault : String :=
  "توضیحات موجود نیست."

def noNewsMsg : String :=
  "متاسفم، خبری درباره AI یا برنامه‌نویسی پیدا نشد."

def newsNetworkFallbackMsg : String :=
  "متاسفم، خطایی در دریافت خبرها رخ داده است. لطفاً بعداً دوباره امتحان کنید."

/-- One parsed article object of a NewsAPI response; a field is `none` when
the key is absent (`article.get` then returns the default). -/
structure Article where
  title : Option String
  description : Option String
  url : Option String
deriving DecidableEq

/-- Outcome of the news request: parsed article list (`data.get("articles",
[])`), or a `RequestException`. -/
inductive NewsOutcome where
  | success (articles : List Article)
  | requestFailure
deriving DecidableEq

/-- The `news_info` f-string of `fetch_news`. -/
def news_info (title description url : String) : String :=
  "📢 خبر درباره AI و برنامه‌نویسی:\n\n" ++
  "عنوان: " ++ title ++ "\n" ++
  "توضیحات: " ++ description ++ "\n" ++
  "لینک: " ++ url

/-- `fetch_news`, with `random.choice(articles)` made explicit as an index
oracle `pick`: the chosen article is `articles[pick % articles.length]`.
Missing fields fall back to the source's `get` defaults, so the body never
raises and the function is total into `String`. -/
def fetch_news (o : NewsOutcome) (pick : Nat) : String :=
  match o with
  | .requestFailure => newsNetworkFallbackMsg
  | .success articles =>
    if articles.isEmpty then noNewsMsg
    else
      let article := articles.getD (pick % articles.length) ⟨none, none, none⟩
      news_info (article.title.getD newsTitleDefault)
        (article.description.getD newsDescriptionDefault)
        (article.url.getD "")

/-- The retry loop of `weather_command`, indexed by the current `attempt`
number and the number of `remaining` loop iterations (`attempts - attempt`).
Returns `(weather_info, client calls, sleeps)`: the reply finally sent, the
number of `get_weather` calls made and the number of `time.sleep(2)` pauses
taken.  The loop breaks as soon as `"متاسفم" not in weather_info`. -/
def weatherRetryLoop (city : String) (outcomes : Nat → WeatherOutcome) :
    Nat → Nat → String × Nat × Nat
  | _, 0 => ("", 0, 0)
  | attempt, remaining + 1 =>
    let wi := get_weather city (outcomes attempt)
    if pyIn "متاسفم" wi then
      if 0 < remaining then
        let r := weatherRetryLoop city outcomes (attempt + 1) remaining
        (r.1, r.2.1 + 1, r.2.2 + 1)
      else
        (wi, 1, 0)
    else
      (wi, 1, 0)

/-- `weather_command`: with no arguments it replies with the usage prompt and
makes no client call; otherwise it joins the arguments into a city name and
runs the 3-attempt retry loop.  `outcomes k` abstracts the network outcome of
the `k`-th `get_weather` call.  Result: `(reply, client calls, sleeps)`. -/
def weather_command (args : List String) (outcomes : Nat → WeatherOutcome) :
    String × Nat × Nat :=
  if args.isEmpty then
    (usageMsg, 0, 0)
  else
    weatherRetryLoop (String.intercalate " " args) outcomes 0 3

/-! ### Substring machinery -/

/-- `containsStr hay needle`: `needle` occurs contiguously in `hay`. -/
def containsStr (hay needle : String) : Prop :=
  needle.data <:+: hay.data

instance containsStrDecidable (hay needle : String) : Decidable (containsStr hay needle) :=
  List.decidableInfix needle.data hay.data

theorem charsInfixOf_iff (n : List Char) : ∀ l : List Char, charsInfixOf n l = true ↔ n <:+: l := by
  intro l
  induction l with
  | nil => cases n <;> simp [charsInfixOf, List.isPrefixOf]
  | cons b bs ih => simp [charsInfixOf, List.infix_cons_iff, ih]

/-- Python's `in` agrees with the `containsStr` predicate. -/
theorem pyIn_iff (needle hay : String) : pyIn needle hay = true ↔ containsStr hay needle :=
  charsInfixOf_iff needle.data hay.data

theorem containsStr_appended (p needle s : String) : containsStr (p ++ needle ++ s) needle := by
  unfold containsStr
  simp only [String.data_append]
  exact List.infix_append _ _ _

theorem containsStr_of_eq (hay p needle s : String) (e : hay = p ++ needle ++ s) :
    containsStr hay needle := by
  rw [e]
  exact containsStr_appended p needle s

/-! ### Claims -/

/-- C7: invoking the weather command with zero arguments makes no call to the
weather client (zero calls, zero sleeps) and replies with the fixed usage
prompt. -/
theorem weather_command_no_args (outcomes : Nat → WeatherOutcome) :
    weather_command [] outcomes = (usageMsg, 0, 0) := rfl

/-- C8: every failure of the weather client resolves to its fixed message and
no exception propagates (`get_weather` is total into `String`): a timeout
yields the fixed timed-out message, an HTTP error status yields the fixed
server-error message, and any other failure yields the fixed generic error
message. -/
theorem get_weather_failure_messages (city : String) (status : Nat) :
    get_weather city WeatherOutcome.timeout = weatherTimeoutMsg ∧
    get_weather city (WeatherOutcome.httpError status) = weatherServerErrorMsg ∧
    get_weather city WeatherOutcome.otherFailure = weatherGenericErrorMsg :=
  ⟨rfl, rfl, rfl⟩

/-- C4: for every well-formed provider response the weather client returns
exactly the fixed multi-line template instantiated with the provider's
condition text, temperature, humidity and wind speed, and that output contains
each of those fields together with the capitalized city name. -/
theorem get_weather_well_formed (city cond temp hum wind : String) :
    get_weather city
        (WeatherOutcome.success ⟨some ⟨some cond, some temp, some hum, some wind⟩⟩) =
      weather_info city cond temp hum wind ∧
    containsStr (weather_info city cond temp hum wind) cond ∧
    containsStr (weather_info city cond temp hum wind) temp ∧
    containsStr (weather_info city cond temp hum wind) hum ∧
    containsStr (weather_info city cond temp hum wind) wind ∧
    containsStr (weather_info city cond temp hum wind) (pyCapitalize city) := by
  refine ⟨rfl, ?_, ?_, ?_, ?_, ?_⟩
  · exact containsStr_of_eq _
      ("آب و هوای " ++ pyCapitalize city ++ ":\n" ++ "توضیحات: ") cond
      ("\n" ++ "دمای هوا: " ++ temp ++ "°C\n" ++ "رطوبت: " ++ hum ++ "%\n" ++
        "سرعت باد: " ++ wind ++ " کیلومتر/ساعت")
      (by simp [weather_info, String.append_assoc])
  · exact containsStr_of_eq _
      ("آب و هوای " ++ pyCapitalize city ++ ":\n" ++ "توضیحات: " ++ cond ++ "\n" ++
        "دمای هوا: ") temp
      ("°C\n" ++ "رطوبت: " ++ hum ++ "%\n" ++ "سرعت باد: " ++ wind ++ " کیلومتر/ساعت")
      (by simp [weather_info, String.append_assoc])
  · exact containsStr_of_eq _
      ("آب و هوای " ++ pyCapitalize city ++ ":\n" ++ "توضیحات: " ++ cond ++ "\n" ++
        "دمای هوا: " ++ temp ++ "°C\n" ++ "رطوبت: ") hum
      ("%\n" ++ "سرعت باد: " ++ wind ++ " کیلومتر/ساعت")
      (by simp [weather_info, String.append_assoc])
  · exact containsStr_of_eq _
      ("آب و هوای " ++ pyCapitalize city ++ ":\n" ++ "توضیحات: " ++ cond ++ "\n" ++
        "دمای هوا: " ++ temp ++ "°C\n" ++ "رطوبت: " ++ hum ++ "%\n" ++ "سرعت باد: ") wind
      (" کیلومتر/ساعت")
      (by simp [weather_info, String.append_assoc])
  · exact containsStr_of_eq _ ("آب و هوای ") (pyCapitalize city)
      (":\n" ++ "توضیحات: " ++ cond ++ "\n" ++ "دمای هوا: " ++ temp ++ "°C\n" ++
        "رطوبت: " ++ hum ++ "%\n" ++ "سرعت باد: " ++ wind ++ " کیلومتر/ساعت")
      (by simp [weather_info, String.append_assoc])

/-- C9: a successful weather reply contains the city transformed by Python's
`capitalize` (first character uppercased, the rest lowercased); in particular
"New York" is echoed as "New york" and is not preserved verbatim in the
reply. -/
theorem get_weather_capitalizes_city (city cond temp hum wind : String) :
    containsStr
      (get_weather city
        (WeatherOutcome.success ⟨some ⟨some cond, some temp, some hum, some wind⟩⟩))
      (pyCapitalize city) ∧
    pyCapitalize "New York" = "New york" ∧
    ¬ containsStr
        (get_weather "New York"
          (WeatherOutcome.success ⟨some ⟨some "Sunny", some "25", some "30", some "10"⟩⟩))
        "New York" := by
  refine ⟨?_, by decide, by decide⟩
  exact containsStr_of_eq _ ("آب و هوای ") (pyCapitalize city)
    (":\n" ++ "توضیحات: " ++ cond ++ "\n" ++ "دمای هوا: " ++ temp ++ "°C\n" ++
      "رطوبت: " ++ hum ++ "%\n" ++ "سرعت باد: " ++ wind ++ " کیلومتر/ساعت")
    (by simp [get_weather, get_weather_try, weather_info, String.append_assoc])

/-- C5: a single-type joke response with text `j` yields exactly `j`; a
two-part response with setup `a` and delivery `b` yields exactly
`a ++ " - " ++ b`. -/
theorem fetch_joke_shapes (j a b : String) (joke setup delivery : Option String) :
    fetch_joke (JokeOutcome.success (some "single") (some j) setup delivery) =
      Except.ok j ∧
    fetch_joke (JokeOutcome.success (some "twopart") joke (some a) (some b)) =
      Except.ok (a ++ " - " ++ b) := by
  constructor
  · simp [fetch_joke, fetch_joke_try]
  · simp [fetch_joke, fetch_joke_try]

/-- C2 counterexample: the provider response `{"type": "single"}` (a shape
that is neither a single-text joke nor a setup+delivery joke, since the joke
text is absent) makes `fetch_joke` raise `KeyError` at `data["joke"]`, which
the `except requests.exceptions.RequestException` clause does not catch: the
exception reaches the caller instead of the fallback message. -/
theorem fetch_joke_keyError_escapes :
    fetch_joke (JokeOutcome.success (some "single") none none none) =
      Except.error PyExc.keyError := rfl

/-- C2 amended: a response whose `type` field is neither "single" nor
"twopart" yields the fixed (English) shape-fallback message, and any network
failure (`RequestException`) yields the fixed (Persian) network-fallback
message; however a response with a recognized `type` but missing text fields
raises an uncaught `KeyError` (see the counterexample). -/
theorem fetch_joke_fallbacks (typ joke setup delivery : Option String)
    (h1 : typ ≠ some "single") (h2 : typ ≠ some "twopart") :
    fetch_joke (JokeOutcome.success typ joke setup delivery) =
      Except.ok jokeShapeFallbackMsg ∧
    fetch_joke JokeOutcome.requestFailure = Except.ok jokeNetworkFallbackMsg := by
  constructor
  · simp [fetch_joke, fetch_joke_try, h1, h2]
  · rfl

/-- C2 witness: the amended fallback behaviour at the concrete response
`{"type": "other"}` and at a concrete network failure. -/
theorem fetch_joke_fallbacks_witness :
    fetch_joke (JokeOutcome.success (some "other") none none none) =
      Except.ok jokeShapeFallbackMsg ∧
    fetch_joke JokeOutcome.requestFailure = Except.ok jokeNetworkFallbackMsg :=
  fetch_joke_fallbacks (some "other") none none none (by decide) (by decide)

/-- C3 counterexample: the successful response `{"current": {}}` has an
unrecognized shape (not the recognized weather shape), yet `get_weather`
returns the fixed generic error message — the inner `KeyError` lands in the
catch-all `except Exception` clause — and not the fixed "city not found"
message. -/
theorem get_weather_malformed_current_counterexample :
    get_weather "Tehran" (WeatherOutcome.success ⟨some ⟨none, none, none, none⟩⟩) =
      weatherGenericErrorMsg ∧
    weatherGenericErrorMsg ≠ cityNotFoundMsg := ⟨rfl, by decide⟩

/-- C3 amended: a successful response without the `current` key returns the
fixed "city not found" message; a successful response with `current` present
but any of the four inner fields missing returns the fixed generic error
message instead. -/
theorem get_weather_shape_handling (city : String) (current : CurrentData)
    (hmiss : current.condition_text = none ∨ current.temp_c = none ∨
      current.humidity = none ∨ current.wind_kph = none) :
    get_weather city (WeatherOutcome.success ⟨none⟩) = cityNotFoundMsg ∧
    get_weather city (WeatherOutcome.success ⟨some current⟩) = weatherGenericErrorMsg := by
  refine ⟨rfl, ?_⟩
  obtain ⟨ct, tc, hu, wk⟩ := current
  cases ct <;> cases tc <;> cases hu <;> cases wk <;>
    first
      | rfl
      | simp at hmiss

/-- C3 witness: the amended behaviour at the concrete responses `{}` (no
`current` key) and `{"current": {}}` (all inner fields missing). -/
theorem get_weather_shape_handling_witness :
    get_weather "Tehran" (WeatherOutcome.success ⟨none⟩) = cityNotFoundMsg ∧
    get_weather "Tehran" (WeatherOutcome.success ⟨some ⟨none, none, none, none⟩⟩) =
      weatherGenericErrorMsg :=
  get_weather_shape_handling "Tehran" ⟨none, none, none, none⟩ (Or.inl rfl)

/-- Unfolding equation for one iteration of the weather retry loop. -/
theorem weatherRetryLoop_unfold (city : String) (o : Nat → WeatherOutcome) (attempt r : Nat) :
    weatherRetryLoop city o attempt (r + 1) =
      if pyIn "متاسفم" (get_weather city (o attempt)) then
        if 0 < r then
          ((weatherRetryLoop city o (attempt + 1) r).1,
           (weatherRetryLoop city o (attempt + 1) r).2.1 + 1,
           (weatherRetryLoop city o (attempt + 1) r).2.2 + 1)
        else (get_weather city (o attempt), 1, 0)
      else (get_weather city (o attempt), 1, 0) := rfl

/-- C1 counterexample: on the invocation `/weather Tehran` with the first
attempt timing out, the client returns its fixed timed-out failure message on
a non-final attempt, yet the handler neither pauses nor retries: it makes
exactly one client call and zero sleeps and replies with that failure message,
because the loop's failure test looks for the substring "متاسفم", which the
timeout message does not contain. -/
theorem weather_retry_counterexample :
    get_weather "Tehran" WeatherOutcome.timeout = weatherTimeoutMsg ∧
    pyIn "متاسفم" weatherTimeoutMsg = false ∧
    weather_command ["Tehran"] (fun _ => WeatherOutcome.timeout) =
      (weatherTimeoutMsg, 1, 0) :=
  ⟨rfl, by decide, by decide⟩

/-- C1 amended: for a non-empty argument list the handler calls the weather
client at most 3 times, and its behaviour is exactly: stop immediately (one
call, no sleep) on any result not containing "متاسفم" — which includes the
client's fixed timeout and server-error failure messages — and otherwise
sleep 2 seconds and retry after a non-final attempt whose result contains
"متاسفم" (the not-found and generic-error messages), replying after the final
failed attempt with the last failure string as-is. -/
theorem weather_retry_amended (args : List String) (outcomes : Nat → WeatherOutcome)
    (h : args ≠ []) :
    (weather_command args outcomes).2.1 ≤ 3 ∧
    weather_command args outcomes =
      (if pyIn "متاسفم" (get_weather (String.intercalate " " args) (outcomes 0)) then
         if pyIn "متاسفم" (get_weather (String.intercalate " " args) (outcomes 1)) then
           (get_weather (String.intercalate " " args) (outcomes 2), 3, 2)
         else (get_weather (String.intercalate " " args) (outcomes 1), 2, 1)
       else (get_weather (String.intercalate " " args) (outcomes 0), 1, 0)) := by
  obtain ⟨a, as, rfl⟩ := List.exists_cons_of_ne_nil h
  have hcmd : weather_command (a :: as) outcomes =
      weatherRetryLoop (String.intercalate " " (a :: as)) outcomes 0 3 := rfl
  have h3 := weatherRetryLoop_unfold (String.intercalate " " (a :: as)) outcomes 0 2
  have h2 := weatherRetryLoop_unfold (String.intercalate " " (a :: as)) outcomes 1 1
  have h1 := weatherRetryLoop_unfold (String.intercalate " " (a :: as)) outcomes 2 0
  norm_num at h3 h2 h1
  have hloop : weatherRetryLoop (String.intercalate " " (a :: as)) outcomes 0 3 =
      (if pyIn "متاسفم" (get_weather (String.intercalate " " (a :: as)) (outcomes 0)) then
         if pyIn "متاسفم" (get_weather (String.intercalate " " (a :: as)) (outcomes 1)) then
           (get_weather (String.intercalate " " (a :: as)) (outcomes 2), 3, 2)
         else (get_weather (String.intercalate " " (a :: as)) (outcomes 1), 2, 1)
       else (get_weather (String.intercalate " " (a :: as)) (outcomes 0), 1, 0)) := by
    rw [h3, h2, h1]
    cases hb0 : pyIn "متاسفم" (get_weather (String.intercalate " " (a :: as)) (outcomes 0)) <;>
      cases hb1 : pyIn "متاسفم" (get_weather (String.intercalate " " (a :: as)) (outcomes 1)) <;>
        cases hb2 : pyIn "متاسفم" (get_weather (String.intercalate " " (a :: as)) (outcomes 2)) <;>
          simp [hb0, hb1, hb2]
  refine ⟨?_, hcmd.trans hloop⟩
  rw [hcmd, hloop]
  cases pyIn "متاسفم" (get_weather (String.intercalate " " (a :: as)) (outcomes 0)) <;>
    cases pyIn "متاسفم" (get_weather (String.intercalate " " (a :: as)) (outcomes 1)) <;>
      simp

/-- C1 witness: the amended characterization applied at the concrete
invocation `/weather Tehran` with every attempt timing out. -/
theorem weather_retry_amended_witness :
    (weather_command ["Tehran"] (fun _ => WeatherOutcome.timeout)).2.1 ≤ 3 ∧
    weather_command ["Tehran"] (fun _ => WeatherOutcome.timeout) =
      (if pyIn "متاسفم" (get_weather (String.intercalate " " ["Tehran"]) WeatherOutcome.timeout) then
         if pyIn "متاسفم" (get_weather (String.intercalate " " ["Tehran"]) WeatherOutcome.timeout) then
           (get_weather (String.intercalate " " ["Tehran"]) WeatherOutcome.timeout, 3, 2)
         else (get_weather (String.intercalate " " ["Tehran"]) WeatherOutcome.timeout, 2, 1)
       else (get_weather (String.intercalate " " ["Tehran"]) WeatherOutcome.timeout, 1, 0)) :=
  weather_retry_amended ["Tehran"] (fun _ => WeatherOutcome.timeout) (by decide)

/-- C6: a news response with an empty article list yields the fixed "no news
found" string; a response with a non-empty, well-formed article list yields a
string containing the title, description and link of one of the supplied
articles — the chosen article is a member of the list, never fabricated. -/
theorem fetch_news_articles (articles : List Article) (pick : Nat)
    (hne : articles ≠ [])
    (hwf : ∀ a ∈ articles, ∃ t d u : String,
      a.title = some t ∧ a.description = some d ∧ a.url = some u) :
    (∀ p : Nat, fetch_news (NewsOutcome.success []) p = noNewsMsg) ∧
    ∃ a ∈ articles, ∃ t d u : String,
      a.title = some t ∧ a.description = some d ∧ a.url = some u ∧
      fetch_news (NewsOutcome.success articles) pick = news_info t d u ∧
      containsStr (news_info t d u) t ∧
      containsStr (news_info t d u) d ∧
      containsStr (news_info t d u) u := by
  refine ⟨fun p => rfl, ?_⟩
  have hlen : 0 < articles.length := List.length_pos.mpr hne
  have hi : pick % articles.length < articles.length := Nat.mod_lt _ hlen
  have hmem : articles[pick % articles.length] ∈ articles := List.getElem_mem hi
  obtain ⟨t, d, u, ht, hd, hu⟩ := hwf _ hmem
  have hne' : articles.isEmpty = false := by simp [hne]
  refine ⟨articles[pick % articles.length], hmem, t, d, u, ht, hd, hu, ?_, ?_, ?_, ?_⟩
  · simp [fetch_news, hne', List.getElem?_eq_getElem hi, ht, hd, hu]
  · exact containsStr_of_eq _ ("📢 خبر درباره AI و برنامه‌نویسی:\n\n" ++ "عنوان: ") t
      ("\n" ++ "توضیحات: " ++ d ++ "\n" ++ "لینک: " ++ u)
      (by simp [news_info, String.append_assoc])
  · exact containsStr_of_eq _
      ("📢 خبر درباره AI و برنامه‌نویسی:\n\n" ++ "عنوان: " ++ t ++ "\n" ++ "توضیحات: ") d
      ("\n" ++ "لینک: " ++ u)
      (by simp [news_info, String.append_assoc])
  · exact containsStr_of_eq _
      ("📢 خبر درباره AI و برنامه‌نویسی:\n\n" ++ "عنوان: " ++ t ++ "\n" ++ "توضیحات: " ++ d ++
        "\n" ++ "لینک: ") u ""
      (by simp [news_info, String.append_assoc])

/-- C6 witness: the claim applied at a concrete one-article list and at the
empty list. -/
theorem fetch_news_articles_witness :
    (∀ p : Nat, fetch_news (NewsOutcome.success []) p = noNewsMsg) ∧
    ∃ a ∈ [Article.mk (some "T") (some "D") (some "U")], ∃ t d u : String,
      a.title = some t ∧ a.description = some d ∧ a.url = some u ∧
      fetch_news (NewsOutcome.success [Article.mk (some "T") (some "D") (some "U")]) 0 =
        news_info t d u ∧
      containsStr (news_info t d u) t ∧
      containsStr (news_info t d u) d ∧
      containsStr (news_info t d u) u :=
  fetch_news_articles [Article.mk (some "T") (some "D") (some "U")] 0 (by decide)
    (by
      intro a ha
      simp only [List.mem_singleton] at ha
      subst ha
      exact ⟨"T", "D", "U", rfl, rfl, rfl⟩)

/-- C10: for a non-empty article list the news client never raises — the
reply is always the template instantiated with `get`-defaulted fields — and
when the chosen article lacks the title or description field the reply
contains the corresponding fixed default string (for a missing url the link
field is the empty string, as the template shows). -/
theorem fetch_news_field_defaults (articles : List Article) (pick : Nat)
    (hne : articles ≠ []) :
    ∃ a ∈ articles,
      fetch_news (NewsOutcome.success articles) pick =
        news_info (a.title.getD newsTitleDefault)
          (a.description.getD newsDescriptionDefault) (a.url.getD "") ∧
      (a.title = none →
        containsStr (fetch_news (NewsOutcome.success articles) pick) newsTitleDefault) ∧
      (a.description = none →
        containsStr (fetch_news (NewsOutcome.success articles) pick)
          newsDescriptionDefault) := by
  have hlen : 0 < articles.length := List.length_pos.mpr hne
  have hi : pick % articles.length < articles.length := Nat.mod_lt _ hlen
  have hmem : articles[pick % articles.length] ∈ articles := List.getElem_mem hi
  have hne' : articles.isEmpty = false := by simp [hne]
  have hfn : fetch_news (NewsOutcome.success articles) pick =
      news_info (articles[pick % articles.length].title.getD newsTitleDefault)
        (articles[pick % articles.length].description.getD newsDescriptionDefault)
        (articles[pick % articles.length].url.getD "") := by
    simp [fetch_news, hne', List.getElem?_eq_getElem hi]
  refine ⟨articles[pick % articles.length], hmem, hfn, ?_, ?_⟩
  · intro ht
    rw [hfn, ht]
    exact containsStr_of_eq _ ("📢 خبر درباره AI و برنامه‌نویسی:\n\n" ++ "عنوان: ")
      newsTitleDefault
      ("\n" ++ "توضیحات: " ++
        (articles[pick % articles.length].description.getD newsDescriptionDefault) ++
        "\n" ++ "لینک: " ++ (articles[pick % articles.length].url.getD ""))
      (by simp [news_info, String.append_assoc])
  · intro hd
    rw [hfn, hd]
    exact containsStr_of_eq _
      ("📢 خبر درباره AI و برنامه‌نویسی:\n\n" ++ "عنوان: " ++
        (articles[pick % articles.length].title.getD newsTitleDefault) ++ "\n" ++ "توضیحات: ")
      newsDescriptionDefault
      ("\n" ++ "لینک: " ++ (articles[pick % articles.length].url.getD ""))
      (by simp [news_info, String.append_assoc])

/-- C10 witness: the claim applied at a concrete one-article list whose
article has no title, description or url field. -/
theorem fetch_news_field_defaults_witness :
    ∃ a ∈ [Article.mk none none none],
      fetch_news (NewsOutcome.success [Article.mk none none none]) 0 =
        news_info (a.title.getD newsTitleDefault)
          (a.description.getD newsDescriptionDefault) (a.url.getD "") ∧
      (a.title = none →
        containsStr (fetch_news (NewsOutcome.success [Article.mk none none none]) 0)
          newsTitleDefault) ∧
      (a.description = none →
        containsStr (fetch_news (NewsOutcome.success [Article.mk none none none]) 0)
          newsDescriptionDefault) :=
  fetch_news_field_defaults [Article.mk none none none] 0 (by decide)
